import Mathlib

/-!
Verification of the funding-curve construction module (`202507_work.py`).

The development shallowly embeds the program: Python `datetime.date` becomes a
`Date` structure together with the proleptic-Gregorian ordinal used by
`(end - start).days`; floating-point rates and year fractions become exact
rationals; `scipy.interpolate.interp1d(kind='linear', fill_value='extrapolate',
assume_sorted=True)` becomes the searchsorted/clip/segment formula of its
`_call_linear` method, guarded by the two-entry minimum its constructor
enforces; raised exceptions become `Except String` results; `np.exp` becomes
`Real.exp`.
-/

deriving instance DecidableEq for Except

/-- Calendar date, mirroring Python `datetime.date` (fields `year`, `month`,
`day`). -/
structure Date where
  year : Nat
  month : Nat
  day : Nat
deriving DecidableEq, Repr, BEq

/-- Gregorian leap-year test, as in Python's `calendar.isleap`. -/
def isLeap (y : Nat) : Bool :=
  (y % 4 == 0 && y % 100 != 0) || (y % 400 == 0)

/-- Month lengths for a non-leap or leap year. -/
def monthLengths (leap : Bool) : List Nat :=
  [31, if leap then 29 else 28, 31, 30, 31, 30, 31, 31, 30, 31, 30, 31]

/-- Number of days in month `m` (1-based) of year `y`. -/
def daysInMonth (y m : Nat) : Nat :=
  (monthLengths (isLeap y)).getD (m - 1) 0

/-- Number of days in year `y` strictly before month `m` (1-based). -/
def daysBeforeMonth (y m : Nat) : Nat :=
  ((monthLengths (isLeap y)).take (m - 1)).sum

/-- Number of leap years in `1, ..., y - 1`. -/
def leapsBefore (y : Nat) : Nat :=
  (y - 1) / 4 - (y - 1) / 100 + (y - 1) / 400

/-- Number of days strictly before January 1 of year `y`, counted from the
proleptic-Gregorian epoch (ordinal of 0001-01-01 is 1). -/
def daysBeforeYear (y : Nat) : Nat :=
  365 * (y - 1) + leapsBefore y

/-- Proleptic-Gregorian ordinal of a date, as in Python `date.toordinal`;
`(end - start).days` in the source is the difference of the two ordinals. -/
def Date.toOrdinal (d : Date) : Nat :=
  daysBeforeYear d.year + daysBeforeMonth d.year d.month + d.day

/-- The date is one Python `datetime.date` can represent (month in range, day
within the month). -/
def Date.valid (d : Date) : Prop :=
  1 ≤ d.year ∧ 1 ≤ d.month ∧ d.month ≤ 12 ∧ 1 ≤ d.day ∧ d.day ≤ daysInMonth d.year d.month

instance : DecidablePred Date.valid := fun d => by
  unfold Date.valid; infer_instance

/-- Python's `date.__le__`: lexicographic comparison of (year, month, day). -/
def dateLe (a b : Date) : Prop :=
  a.year < b.year ∨ (a.year = b.year ∧
    (a.month < b.month ∨ (a.month = b.month ∧ a.day ≤ b.day)))

/-- Python's `date.__lt__`: strict lexicographic comparison. -/
def dateLt (a b : Date) : Prop :=
  a.year < b.year ∨ (a.year = b.year ∧
    (a.month < b.month ∨ (a.month = b.month ∧ a.day < b.day)))

instance : DecidableRel dateLe := fun a b => by
  unfold dateLe; infer_instance

instance : DecidableRel dateLt := fun a b => by
  unfold dateLt; infer_instance

instance : IsTotal Date dateLe := ⟨by
  intro a b
  unfold dateLe
  omega⟩

instance : IsTrans Date dateLe := ⟨by
  intro a b c hab hbc
  unfold dateLe at *
  omega⟩

/-- The set of day-count conventions accepted by `year_fraction`. -/
def supportedConventions : List String :=
  ["ACT/365", "ACT/360", "30/360"]

/-- Embedding of `year_fraction(start, end, convention)`.  `days` is the
calendar-day difference `(end - start).days`; the `30/360` branch applies the
bond-basis clamp `D1 = min(d1, 30)`, `D2 = d2 if d1 < 30 else min(d2, 30)`.
An unsupported convention raises `ValueError`, modelled as `Except.error`. -/
def year_fraction (s e : Date) (convention : String) : Except String ℚ :=
  let days : ℤ := (e.toOrdinal : ℤ) - (s.toOrdinal : ℤ)
  if convention = "ACT/365" then
    .ok ((days : ℚ) / 365)
  else if convention = "ACT/360" then
    .ok ((days : ℚ) / 360)
  else if convention = "30/360" then
    let D1 : Nat := min s.day 30
    let D2 : Nat := if s.day < 30 then e.day else min e.day 30
    .ok ((((e.year : ℤ) - s.year) * 360 + ((e.month : ℤ) - s.month) * 30
          + ((D2 : ℤ) - (D1 : ℤ)) : ℚ) / 360)
  else
    .error ("Unsupported convention: " ++ convention)

/-- Python `sorted` on a list of dates (stable; here insertion sort under the
lexicographic date order). -/
def sortDates (ds : List Date) : List Date :=
  List.insertionSort dateLe ds

/-- Dictionary lookup `points[d]` for the date keys of the mapping; keys of a
Python dict are pairwise distinct, so the default is never taken on them. -/
def lookupRate (points : List (Date × ℚ)) (d : Date) : ℚ :=
  ((points.find? (fun p => p.1 == d)).map Prod.snd).getD 0

/-- The list comprehension `[year_fraction(valuation_date, d, dc) for d in dates]`,
propagating the first raised error. -/
def yfList (v : Date) (dc : String) : List Date → Except String (List ℚ)
  | [] => .ok []
  | d :: ds => do
    let t ← year_fraction v d dc
    let ts ← yfList v dc ds
    pure (t :: ts)

/-- Python truthiness of an optional dict argument: `if cs_points:` is taken
exactly when the argument is present and non-empty. -/
def truthy : Option (List (Date × ℚ)) → Bool
  | none => false
  | some l => !l.isEmpty

/-- Embedding of `np.searchsorted(xs, t)` with the default `side='left'` on a
sorted axis: the number of entries strictly below `t`. -/
def searchsorted (xs : List ℚ) (t : ℚ) : Nat :=
  xs.countP (fun x => decide (x < t))

/-- One evaluation of scipy's `interp1d._call_linear`: insertion index clipped
to `[1, len(xs) - 1]`, then the linear formula on the segment `[lo, hi]`.
With `fill_value='extrapolate'` no bounds check is applied, so queries outside
the knot range use the edge segment's line. -/
def interpEval (xs ys : List ℚ) (t : ℚ) : ℚ :=
  let idx : Nat := min (max (searchsorted xs t) 1) (xs.length - 1)
  let lo := idx - 1
  let hi := idx
  let x_lo := xs.getD lo 0
  let x_hi := xs.getD hi 0
  let y_lo := ys.getD lo 0
  let y_hi := ys.getD hi 0
  y_lo + (y_hi - y_lo) / (x_hi - x_lo) * (t - x_lo)

/-- Construction of `interp1d(xs, ys, kind='linear', fill_value='extrapolate',
assume_sorted=True)`: the constructor raises
`ValueError("x and y arrays must have at least 2 entries")` when the axis has
fewer than two entries, otherwise yields the `_call_linear` evaluator. -/
def interp1d (xs ys : List ℚ) : Except String (ℚ → ℚ) :=
  if xs.length < 2 then
    .error "x and y arrays must have at least 2 entries"
  else
    .ok (interpEval xs ys)

/-- State of a `FundingCurveBuilder` after `__init__`: the sorted base tenors
and rates, and (when the spread dict was truthy) the sorted spread tenors and
rates, which the source always assigns together. -/
structure FundingCurveBuilder where
  valuation_date : Date
  dc : String
  ois_tenors : List ℚ
  ois_rates : List ℚ
  cs : Option (List ℚ × List ℚ)
deriving DecidableEq

/-- Embedding of `FundingCurveBuilder.__init__`: sort the base dates, compute
their year fractions and rates; do the same for the spread dict when it is
truthy (a `None` or empty dict leaves the spread state unset). -/
def FundingCurveBuilder.ofPoints (ois_points : List (Date × ℚ)) (valuation_date : Date)
    (dc : String) (cs_points : Option (List (Date × ℚ))) :
    Except String FundingCurveBuilder := do
  let ois_dates := sortDates (ois_points.map Prod.fst)
  let ois_tenors ← yfList valuation_date dc ois_dates
  let ois_rates := ois_dates.map (lookupRate ois_points)
  if truthy cs_points then
    let cs_pts := cs_points.getD []
    let cs_dates := sortDates (cs_pts.map Prod.fst)
    let cs_tenors ← yfList valuation_date dc cs_dates
    let cs_rates := cs_dates.map (lookupRate cs_pts)
    pure ⟨valuation_date, dc, ois_tenors, ois_rates, some (cs_tenors, cs_rates)⟩
  else
    pure ⟨valuation_date, dc, ois_tenors, ois_rates, none⟩

/-- Embedding of `FundingCurveBuilder.build`: construct the base interpolant,
then the spread interpolant when spread state is present, and return the
closure `total_rate(t) = base(t) + (spread(t) if present else 0.0)`. -/
def FundingCurveBuilder.build (b : FundingCurveBuilder) : Except String (ℚ → ℚ) := do
  let ois_interp ← interp1d b.ois_tenors b.ois_rates
  match b.cs with
  | some (ts, rs) => do
    let cs_interp ← interp1d ts rs
    pure (fun t => ois_interp t + cs_interp t)
  | none => pure (fun t => ois_interp t + 0)

/-- State of a `DiscountFactorService`: the composed rate function, the
valuation date and the day-count convention. -/
structure DiscountFactorService where
  interp : ℚ → ℚ
  valuation_date : Date
  dc : String

/-- The exact-arithmetic core of `get_df`: the rate `r = interp(t)` and the
year fraction `t`, with `year_fraction`'s error propagated. -/
def DiscountFactorService.get_rt (svc : DiscountFactorService) (target_date : Date) :
    Except String (ℚ × ℚ) := do
  let t ← year_fraction svc.valuation_date target_date svc.dc
  pure (svc.interp t, t)

/-- Embedding of `DiscountFactorService.get_df`: `np.exp(-r * t)` on the pair
computed by `get_rt`. -/
noncomputable def DiscountFactorService.get_df (svc : DiscountFactorService)
    (target_date : Date) : Except String ℝ :=
  (svc.get_rt target_date).map (fun rt => Real.exp (-((rt.1 * rt.2 : ℚ) : ℝ)))

/-- A flat (constant) composed rate function, used to instantiate the service
on concrete examples. -/
def flatRate (r : ℚ) : ℚ → ℚ := fun _ => r

theorem daysBeforeYear_succ (y : Nat) (hy : 1 ≤ y) :
    daysBeforeYear (y + 1) = daysBeforeYear y + (if isLeap y then 366 else 365) := by
  unfold daysBeforeYear leapsBefore isLeap
  simp only [Nat.add_sub_cancel, Bool.or_eq_true, Bool.and_eq_true, beq_iff_eq, bne_iff_ne,
    ne_eq, decide_eq_true_eq]
  split <;> omega

theorem daysBeforeYear_mono (y z : Nat) (hy : 1 ≤ y) (hyz : y ≤ z) :
    daysBeforeYear y ≤ daysBeforeYear z := by
  induction z, hyz using Nat.le_induction with
  | base => exact le_refl _
  | succ n hn ih =>
      have h := daysBeforeYear_succ n (by omega)
      split at h <;> omega

theorem daysBeforeMonth_add_le (y m d : Nat) (h1 : 1 ≤ m) (h2 : m ≤ 12)
    (hd : d ≤ daysInMonth y m) :
    daysBeforeMonth y m + d ≤ (if isLeap y then 366 else 365) := by
  unfold daysBeforeMonth daysInMonth at *
  generalize isLeap y = L at *
  cases L <;> interval_cases m <;> simp_all [monthLengths] <;> omega

theorem daysBeforeMonth_mono (y ma mb : Nat) (h1 : 1 ≤ ma) (hab : ma < mb) (hb : mb ≤ 12) :
    daysBeforeMonth y ma + daysInMonth y ma ≤ daysBeforeMonth y mb := by
  unfold daysBeforeMonth daysInMonth
  generalize isLeap y = L
  have hma : ma ≤ 11 := by omega
  cases L <;> interval_cases ma <;> interval_cases mb <;> simp [monthLengths]

theorem toOrdinal_lt_toOrdinal {a b : Date} (ha : a.valid) (hb : b.valid) (hab : dateLt a b) :
    a.toOrdinal < b.toOrdinal := by
  obtain ⟨hay, ham1, ham2, had1, had2⟩ := ha
  obtain ⟨hby, hbm1, hbm2, hbd1, hbd2⟩ := hb
  unfold Date.toOrdinal
  rcases hab with hy | ⟨hy, hm | ⟨hm, hd⟩⟩
  · have h1 := daysBeforeMonth_add_le a.year a.month a.day ham1 ham2 had2
    have h2 := daysBeforeYear_succ a.year hay
    have h3 := daysBeforeYear_mono (a.year + 1) b.year (by omega) (by omega)
    cases hL : isLeap a.year <;> simp [hL] at h1 h2 <;> omega
  · rw [hy]
    have h1 := daysBeforeMonth_mono b.year a.month b.month ham1 hm hbm2
    rw [hy] at had2
    omega
  · rw [hy, hm]
    omega

theorem dateLt_of_le_of_ne {a b : Date} (hle : dateLe a b) (hne : a ≠ b) : dateLt a b := by
  have hfields : ¬(a.year = b.year ∧ a.month = b.month ∧ a.day = b.day) := by
    intro h
    apply hne
    cases a; cases b
    simp_all
  unfold dateLe dateLt at *
  omega

theorem year_fraction_act365 (s e : Date) :
    year_fraction s e "ACT/365"
      = Except.ok (((((e.toOrdinal : ℤ) - (s.toOrdinal : ℤ)) : ℤ) : ℚ) / 365) := rfl

theorem year_fraction_act360 (s e : Date) :
    year_fraction s e "ACT/360"
      = Except.ok (((((e.toOrdinal : ℤ) - (s.toOrdinal : ℤ)) : ℤ) : ℚ) / 360) := rfl

theorem year_fraction_30360 (s e : Date) :
    year_fraction s e "30/360"
      = Except.ok ((((e.year : ℤ) - s.year) * 360 + ((e.month : ℤ) - s.month) * 30
          + (((if s.day < 30 then e.day else min e.day 30 : Nat) : ℤ)
              - ((min s.day 30 : Nat) : ℤ)) : ℚ) / 360) := by
  unfold year_fraction
  rw [if_neg (by decide : ¬("30/360" = "ACT/365")), if_neg (by decide : ¬("30/360" = "ACT/360")),
    if_pos rfl]

theorem year_fraction_unsupported (s e : Date) (c : String) (hc : c ∉ supportedConventions) :
    year_fraction s e c = Except.error ("Unsupported convention: " ++ c) := by
  simp only [supportedConventions, List.mem_cons, List.mem_singleton, not_or] at hc
  obtain ⟨h1, h2, h3⟩ := hc
  unfold year_fraction
  rw [if_neg h1, if_neg h2, if_neg (by simpa using h3)]

/-- C6: `year_fraction` fails with the InvalidConvention (`ValueError`) outcome
exactly when the convention string is outside {ACT/365, ACT/360, 30/360}, and
returns normally on every member of that set. -/
theorem year_fraction_convention_dispatch (s e : Date) (c : String) :
    ((∃ q, year_fraction s e c = Except.ok q) ↔ c ∈ supportedConventions)
    ∧ (year_fraction s e c = Except.error ("Unsupported convention: " ++ c)
        ↔ c ∉ supportedConventions) := by
  by_cases hc : c ∈ supportedConventions
  · refine ⟨⟨fun _ => hc, fun _ => ?_⟩, ?_⟩
    · rcases (by simpa [supportedConventions] using hc : c = "ACT/365" ∨ c = "ACT/360" ∨ c = "30/360") with h | h | h <;> subst h
      · exact ⟨_, year_fraction_act365 s e⟩
      · exact ⟨_, year_fraction_act360 s e⟩
      · exact ⟨_, year_fraction_30360 s e⟩
    · constructor
      · intro herr
        rcases (by simpa [supportedConventions] using hc : c = "ACT/365" ∨ c = "ACT/360" ∨ c = "30/360") with h | h | h <;> subst h <;>
          simp [year_fraction_act365, year_fraction_act360, year_fraction_30360] at herr
      · intro h
        exact absurd hc h
  · refine ⟨⟨fun hponder => ?_, fun h => absurd h hc⟩, ⟨fun _ => hc, fun _ => year_fraction_unsupported s e c hc⟩⟩
    obtain ⟨q, hq⟩ := hponder
    rw [year_fraction_unsupported s e c hc] at hq
    exact absurd hq (by simp)

/-- C7: for every date `d` and every supported convention `c`,
`year_fraction(d, d, c)` returns `0`, including under 30/360 when the
day-of-month is 31 (both endpoints clamped by the D1/D2 rule). -/
theorem year_fraction_same_date_zero (d : Date) (c : String)
    (hc : c ∈ supportedConventions) :
    year_fraction d d c = Except.ok 0 := by
  rcases (by simpa [supportedConventions] using hc : c = "ACT/365" ∨ c = "ACT/360" ∨ c = "30/360") with h | h | h <;> subst h
  · rw [year_fraction_act365]; norm_num
  · rw [year_fraction_act360]; norm_num
  · have hmin : (min d.day 30 : Nat) = if d.day < 30 then d.day else min d.day 30 := by
      split <;> omega
    rw [year_fraction_30360, ← hmin]
    congr 1
    push_cast
    ring

/-- Witness for C7 at a concrete date whose day-of-month is 31, under 30/360. -/
theorem year_fraction_same_date_zero_witness :
    ("30/360" ∈ supportedConventions)
    ∧ year_fraction (Date.mk 2024 1 31) (Date.mk 2024 1 31) "30/360" = Except.ok 0 :=
  ⟨by decide, year_fraction_same_date_zero (Date.mk 2024 1 31) "30/360" (by decide)⟩

theorem get_df_ok {f : ℚ → ℚ} {v d : Date} {c : String} {t : ℚ}
    (h : year_fraction v d c = Except.ok t) :
    DiscountFactorService.get_df ⟨f, v, c⟩ d
      = Except.ok (Real.exp (-((f t * t : ℚ) : ℝ))) := by
  simp [DiscountFactorService.get_df, DiscountFactorService.get_rt, h, Except.map]

theorem yf_2024_to_2025 :
    year_fraction (Date.mk 2024 1 1) (Date.mk 2025 1 1) "ACT/365" = Except.ok (366/365) := by
  rw [year_fraction_act365]
  norm_num [Date.toOrdinal, daysBeforeYear, daysBeforeMonth, leapsBefore, daysInMonth,
    monthLengths, isLeap]

theorem yf_2024_same :
    year_fraction (Date.mk 2024 1 1) (Date.mk 2024 1 1) "ACT/365" = Except.ok 0 := by
  rw [year_fraction_act365]
  norm_num

theorem yf_one_day_back :
    year_fraction (Date.mk 2024 1 2) (Date.mk 2024 1 1) "ACT/365" = Except.ok (-1/365) := by
  rw [year_fraction_act365]
  norm_num [Date.toOrdinal, daysBeforeYear, daysBeforeMonth, leapsBefore, daysInMonth,
    monthLengths, isLeap]

theorem yf_back_30360 :
    year_fraction (Date.mk 2024 3 31) (Date.mk 2024 3 30) "30/360" = Except.ok 0 := by
  rw [year_fraction_30360]
  norm_num

/-- C1: `get_df` returns `exp(-r * t)` with `t = year_fraction(valuation, target)`
and `r` the composed rate at `t`; at the valuation date itself, whenever the
year fraction is `0`, the discount factor is exactly `1`. -/
theorem get_df_exp_formula (f : ℚ → ℚ) (v d : Date) (c : String) (t : ℚ)
    (h : year_fraction v d c = Except.ok t) :
    DiscountFactorService.get_df ⟨f, v, c⟩ d
        = Except.ok (Real.exp (-((f t * t : ℚ) : ℝ)))
    ∧ (year_fraction v v c = Except.ok 0 →
        DiscountFactorService.get_df ⟨f, v, c⟩ v = Except.ok 1) := by
  refine ⟨get_df_ok h, fun h0 => ?_⟩
  rw [get_df_ok h0]
  norm_num

/-- Witness for C1 on the spec's concrete scenario (valuation 2024-01-01,
target 2025-01-01, ACT/365, flat 3% curve); 2024 is a leap year so t = 366/365. -/
theorem get_df_exp_formula_witness :
    year_fraction (Date.mk 2024 1 1) (Date.mk 2025 1 1) "ACT/365" = Except.ok (366/365)
    ∧ DiscountFactorService.get_df ⟨flatRate (3/100), Date.mk 2024 1 1, "ACT/365"⟩
        (Date.mk 2025 1 1)
        = Except.ok (Real.exp (-((flatRate (3/100) (366/365) * (366/365) : ℚ) : ℝ)))
    ∧ DiscountFactorService.get_df ⟨flatRate (3/100), Date.mk 2024 1 1, "ACT/365"⟩
        (Date.mk 2024 1 1)
        = Except.ok 1 := by
  have h := get_df_exp_formula (flatRate (3/100)) (Date.mk 2024 1 1) (Date.mk 2025 1 1)
    "ACT/365" (366/365) yf_2024_to_2025
  exact ⟨yf_2024_to_2025, h.1, h.2 yf_2024_same⟩

/-- C8 counterexample: under 30/360, the target 2024-03-30 lies strictly before
the valuation date 2024-03-31, yet `get_df` computes `t = 0` (not `t < 0`) and
returns a discount factor of exactly `1` (not `> 1`), even with a positive flat
rate. -/
theorem backward_discount_counterexample :
    dateLt (Date.mk 2024 3 30) (Date.mk 2024 3 31)
    ∧ year_fraction (Date.mk 2024 3 31) (Date.mk 2024 3 30) "30/360" = Except.ok 0
    ∧ DiscountFactorService.get_df ⟨flatRate (3/100), Date.mk 2024 3 31, "30/360"⟩
        (Date.mk 2024 3 30)
        = Except.ok 1 := by
  refine ⟨by decide, yf_back_30360, ?_⟩
  have h := get_df_ok (f := flatRate (3/100)) yf_back_30360
  rw [h]
  norm_num

/-- C8 amended: under ACT/365 and ACT/360 a valid target strictly before a
valid valuation date yields `t < 0`, and when the composed rate at `t` is
positive the discount factor `exp(-r * t)` is strictly greater than `1`; no
validation or special-casing of the target date is performed (the formula is
the same one used for forward dates). -/
theorem backward_discount_act (f : ℚ → ℚ) (v d : Date) (c : String) (t : ℚ)
    (hv : v.valid) (hd : d.valid) (hlt : dateLt d v)
    (hc : c = "ACT/365" ∨ c = "ACT/360")
    (ht : year_fraction v d c = Except.ok t) :
    t < 0 ∧ (0 < f t →
      DiscountFactorService.get_df ⟨f, v, c⟩ d
          = Except.ok (Real.exp (-((f t * t : ℚ) : ℝ)))
      ∧ 1 < Real.exp (-((f t * t : ℚ) : ℝ))) := by
  have hord := toOrdinal_lt_toOrdinal hd hv hlt
  have hsub : ((d.toOrdinal : ℤ) - (v.toOrdinal : ℤ)) < 0 := by omega
  have htneg : t < 0 := by
    rcases hc with h | h <;> subst h
    · have heq := Except.ok.inj ((year_fraction_act365 v d).symm.trans ht)
      rw [← heq]
      apply div_neg_of_neg_of_pos _ (by norm_num)
      exact_mod_cast hsub
    · have heq := Except.ok.inj ((year_fraction_act360 v d).symm.trans ht)
      rw [← heq]
      apply div_neg_of_neg_of_pos _ (by norm_num)
      exact_mod_cast hsub
  refine ⟨htneg, fun hf => ⟨get_df_ok ht, ?_⟩⟩
  rw [Real.one_lt_exp_iff]
  have hmul : f t * t < 0 := mul_neg_of_pos_of_neg hf htneg
  have : ((f t * t : ℚ) : ℝ) < 0 := by exact_mod_cast hmul
  linarith

/-- Witness for C8 (amended) : valuation 2024-01-02, target 2024-01-01,
ACT/365, flat positive rate 3%; t = -1/365 and the discount factor exceeds 1. -/
theorem backward_discount_act_witness :
    ((-1 : ℚ)/365 < 0)
    ∧ DiscountFactorService.get_df ⟨flatRate (3/100), Date.mk 2024 1 2, "ACT/365"⟩
        (Date.mk 2024 1 1)
        = Except.ok (Real.exp (-((flatRate (3/100) (-1/365) * (-1/365) : ℚ) : ℝ)))
    ∧ 1 < Real.exp (-((flatRate (3/100) (-1/365) * (-1/365) : ℚ) : ℝ)) := by
  have h := backward_discount_act (flatRate (3/100)) (Date.mk 2024 1 2) (Date.mk 2024 1 1)
    "ACT/365" (-1/365) (by decide) (by decide) (by decide) (Or.inl rfl) yf_one_day_back
  have h2 := h.2 (by norm_num [flatRate])
  exact ⟨h.1, h2.1, h2.2⟩

theorem year_fraction_ok_of_supported (s e : Date) (c : String)
    (hc : c ∈ supportedConventions) :
    ∃ q, year_fraction s e c = Except.ok q := by
  rcases (by simpa [supportedConventions] using hc :
      c = "ACT/365" ∨ c = "ACT/360" ∨ c = "30/360") with h | h | h <;> subst h
  · exact ⟨_, year_fraction_act365 s e⟩
  · exact ⟨_, year_fraction_act360 s e⟩
  · exact ⟨_, year_fraction_30360 s e⟩

/-- C2: the composed rate function produced by `build` evaluates, at every
year fraction `t`, to `base(t) + spread(t)` when spread state is present, and
to `base(t)` alone (the spread contributing exactly `0`) when it is absent. -/
theorem total_rate_composition (b : FundingCurveBuilder) (base : ℚ → ℚ)
    (hbase : interp1d b.ois_tenors b.ois_rates = Except.ok base) :
    (∀ ts rs csf, b.cs = some (ts, rs) → interp1d ts rs = Except.ok csf →
      ∃ f, b.build = Except.ok f ∧ ∀ t, f t = base t + csf t)
    ∧ (b.cs = none → ∃ f, b.build = Except.ok f ∧ ∀ t, f t = base t) := by
  constructor
  · intro ts rs csf hcs hcsf
    refine ⟨_, ?_, fun t => rfl⟩
    simp [FundingCurveBuilder.build, hbase, hcs, hcsf, Except.bind, Bind.bind,
      Except.pure, Pure.pure]
  · intro hcs
    refine ⟨fun t => base t + 0, ?_, fun t => by ring⟩
    simp [FundingCurveBuilder.build, hbase, hcs, Except.bind, Bind.bind,
      Except.pure, Pure.pure]

/-- Witness for C2 on a two-knot base curve with a flat 0.5% spread curve:
the composed value at t = 3 is the base extrapolation 1/20 plus the spread
1/200. -/
theorem total_rate_composition_witness :
    (FundingCurveBuilder.mk (Date.mk 2024 1 1) "ACT/365" [1, 2] [3/100, 1/25]
        (some ([1, 2], [1/200, 1/200]))).build.map (fun f => f 3)
      = Except.ok (1/20 + 1/200) := by
  obtain ⟨f, hb, hf⟩ := (total_rate_composition
      (FundingCurveBuilder.mk (Date.mk 2024 1 1) "ACT/365" [1, 2] [3/100, 1/25]
        (some ([1, 2], [1/200, 1/200])))
      (interpEval [1, 2] [3/100, 1/25]) rfl).1
    [1, 2] [1/200, 1/200] (interpEval [1, 2] [1/200, 1/200]) rfl rfl
  rw [hb]
  simp only [Except.map]
  rw [hf]
  norm_num [interpEval, searchsorted, List.countP, List.countP.go]

/-- C3: building from an empty base mapping fails with the insufficient-data
`ValueError` (the two-entry minimum check of the interpolator constructor);
the error is raised by that input check, before any interpolation can happen,
so no rate function is ever produced. -/
theorem build_empty_base_insufficient (v : Date) (c : String)
    (hc : c ∈ supportedConventions) :
    (FundingCurveBuilder.ofPoints [] v c none).bind FundingCurveBuilder.build
      = Except.error "x and y arrays must have at least 2 entries" := by
  simp [FundingCurveBuilder.ofPoints, sortDates, yfList, truthy,
    FundingCurveBuilder.build, interp1d, Except.bind, Bind.bind, Except.pure, Pure.pure]

/-- Witness for C3 at a concrete valuation date and convention. -/
theorem build_empty_base_insufficient_witness :
    ("ACT/365" ∈ supportedConventions)
    ∧ (FundingCurveBuilder.ofPoints [] (Date.mk 2024 1 1) "ACT/365" none).bind
        FundingCurveBuilder.build
      = Except.error "x and y arrays must have at least 2 entries" :=
  ⟨by decide, build_empty_base_insufficient (Date.mk 2024 1 1) "ACT/365" (by decide)⟩

/-- C4 counterexample: with a base mapping of exactly one point, `build` does
not succeed with a constant flat line; the interpolator constructor rejects the
single-entry axis with the same `ValueError` as the empty case. -/
theorem single_point_claim_counterexample :
    (FundingCurveBuilder.ofPoints [(Date.mk 2025 1 1, 3/100)] (Date.mk 2024 1 1)
        "ACT/365" none).bind FundingCurveBuilder.build
      = Except.error "x and y arrays must have at least 2 entries" := by
  rfl

/-- C4 amended: for every base mapping with exactly one point and every
supported convention, `build` fails with the insufficient-entries error
(`interp1d` with `kind='linear'` requires at least two entries); no flat
constant curve is produced. -/
theorem single_point_build_error (d : Date) (r : ℚ) (v : Date) (c : String)
    (hc : c ∈ supportedConventions) :
    (FundingCurveBuilder.ofPoints [(d, r)] v c none).bind FundingCurveBuilder.build
      = Except.error "x and y arrays must have at least 2 entries" := by
  obtain ⟨t, ht⟩ := year_fraction_ok_of_supported v d c hc
  simp [FundingCurveBuilder.ofPoints, sortDates, yfList, truthy, ht, lookupRate,
    FundingCurveBuilder.build, interp1d, Except.bind, Bind.bind, Except.pure, Pure.pure]

/-- Witness for C4 (amended) at a concrete one-point mapping under ACT/360. -/
theorem single_point_build_error_witness :
    ("ACT/360" ∈ supportedConventions)
    ∧ (FundingCurveBuilder.ofPoints [(Date.mk 2025 6 1, 1/50)] (Date.mk 2025 1 1)
        "ACT/360" none).bind FundingCurveBuilder.build
      = Except.error "x and y arrays must have at least 2 entries" :=
  ⟨by decide, single_point_build_error (Date.mk 2025 6 1) (1/50) (Date.mk 2025 1 1)
    "ACT/360" (by decide)⟩

/-- C10: supplying an empty (but present) spread mapping is treated exactly as
supplying no spread mapping: `__init__` takes the falsy branch, producing the
identical builder state (no spread interpolant is ever built, and by the C2
composition the composed rate is then the base interpolant alone). -/
theorem empty_spread_equals_none (pts : List (Date × ℚ)) (v : Date) (dc : String) :
    FundingCurveBuilder.ofPoints pts v dc (some [])
      = FundingCurveBuilder.ofPoints pts v dc none := by
  simp [FundingCurveBuilder.ofPoints, truthy]

/-- C5: for a builder holding exactly two base knots with year fractions
t0 < t1 and rates r0, r1 and no spread, the composed rate at every t (inside
or outside the knot range alike — the edge segment extrapolates and no error is
raised) is the affine line r0 + (r1 - r0)(t - t0)/(t1 - t0). -/
theorem two_point_linear (b : FundingCurveBuilder) (t0 t1 r0 r1 : ℚ)
    (ht : b.ois_tenors = [t0, t1]) (hr : b.ois_rates = [r0, r1]) (hcs : b.cs = none)
    (h01 : t0 < t1) :
    ∃ f, b.build = Except.ok f ∧ ∀ t, f t = r0 + (r1 - r0) * (t - t0) / (t1 - t0) := by
  have hb : b.build = Except.ok (fun t => interpEval [t0, t1] [r0, r1] t + 0) := by
    simp [FundingCurveBuilder.build, ht, hr, hcs, interp1d, Except.bind, Bind.bind,
      Except.pure, Pure.pure]
  refine ⟨_, hb, fun t => ?_⟩
  have hidx : min (max (searchsorted [t0, t1] t) 1) ([t0, t1].length - 1) = 1 := by
    simp only [List.length_cons, List.length_nil]
    exact min_eq_right (le_max_right _ _)
  simp only [interpEval, hidx]
  norm_num
  ring

/-- Witness for C5: knots (1, 3%) and (2, 4%), evaluated at the extrapolated
point t = 3, giving 5%. -/
theorem two_point_linear_witness :
    ((1:ℚ) < 2)
    ∧ (FundingCurveBuilder.mk (Date.mk 2024 1 1) "ACT/365" [1, 2] [3/100, 1/25]
        none).build.map (fun f => f 3) = Except.ok (1/20) := by
  obtain ⟨f, hb, hf⟩ := two_point_linear
    (FundingCurveBuilder.mk (Date.mk 2024 1 1) "ACT/365" [1, 2] [3/100, 1/25] none)
    1 2 (3/100) (1/25) rfl rfl rfl (by norm_num)
  refine ⟨by norm_num, ?_⟩
  rw [hb]
  simp only [Except.map]
  rw [hf]
  norm_num

theorem yfList_ok_of_forall {v : Date} {c : String} {g : Date → ℚ}
    (hg : ∀ d, year_fraction v d c = Except.ok (g d)) (ds : List Date) :
    yfList v c ds = Except.ok (ds.map g) := by
  induction ds with
  | nil => rfl
  | cons d ds ih =>
      simp [yfList, hg d, ih, Except.bind, Bind.bind, Except.pure, Pure.pure]

/-- C9 counterexample: under 30/360, two pairwise-distinct, valid base dates
(2024-03-30 and 2024-03-31, valuation 2024-01-30, whose day 30 triggers the D2
clamp) produce the year-fraction axis [1/6, 1/6] — equal entries without
coinciding dates, so the sorted axis is not strictly increasing. -/
theorem axis_30_360_collision :
    (∀ p ∈ [(Date.mk 2024 3 30, (2:ℚ)/100), (Date.mk 2024 3 31, 5/200)], p.1.valid)
    ∧ ([(Date.mk 2024 3 30, (2:ℚ)/100), (Date.mk 2024 3 31, 5/200)].map Prod.fst).Nodup
    ∧ (FundingCurveBuilder.ofPoints [(Date.mk 2024 3 30, 2/100), (Date.mk 2024 3 31, 5/200)]
        (Date.mk 2024 1 30) "30/360" none).map FundingCurveBuilder.ois_tenors
      = Except.ok [1/6, 1/6]
    ∧ ¬ List.Pairwise (fun x y => x < y) [(1:ℚ)/6, 1/6] := by
  refine ⟨by intro p hp; fin_cases hp <;> decide, by decide, ?_, by simp⟩
  simp [FundingCurveBuilder.ofPoints, sortDates, yfList, lookupRate, truthy, dateLe,
    year_fraction_30360, Except.map, Except.bind, Bind.bind, Except.pure, Pure.pure,
    List.find?, Option.map, Option.getD, beq_iff_eq, Date.mk.injEq]
  norm_num

/-- C9 amended: for a base mapping with pairwise-distinct valid dates, the
year-fraction axis obtained after sorting is strictly increasing under ACT/365
and ACT/360 (under 30/360 distinct dates can collide onto one year fraction,
as shown separately). -/
theorem axis_strict_mono_act (pts : List (Date × ℚ)) (v : Date) (c : String)
    (b : FundingCurveBuilder)
    (hvalid : ∀ p ∈ pts, (p.1).valid)
    (hnodup : (pts.map Prod.fst).Nodup)
    (hc : c = "ACT/365" ∨ c = "ACT/360")
    (hb : FundingCurveBuilder.ofPoints pts v c none = Except.ok b) :
    List.Pairwise (fun x y => x < y) b.ois_tenors := by
  obtain ⟨den, hden, hyf⟩ : ∃ den : ℚ, 0 < den ∧ ∀ d : Date, year_fraction v d c
      = Except.ok (((((d.toOrdinal : ℤ) - (v.toOrdinal : ℤ)) : ℤ) : ℚ) / den) := by
    rcases hc with h | h <;> subst h
    · exact ⟨365, by norm_num, fun d => year_fraction_act365 v d⟩
    · exact ⟨360, by norm_num, fun d => year_fraction_act360 v d⟩
  have hylist := yfList_ok_of_forall hyf (sortDates (pts.map Prod.fst))
  have htenors : b.ois_tenors
      = (sortDates (pts.map Prod.fst)).map
          (fun d => ((((d.toOrdinal : ℤ) - (v.toOrdinal : ℤ)) : ℤ) : ℚ) / den) := by
    unfold FundingCurveBuilder.ofPoints at hb
    simp only [hylist, truthy, Except.bind, Bind.bind, Except.pure, Pure.pure,
      Bool.false_eq_true, if_false, Except.ok.injEq] at hb
    subst hb
    rfl
  have hsorted : List.Sorted dateLe (sortDates (pts.map Prod.fst)) :=
    List.sorted_insertionSort dateLe _
  have hperm : (sortDates (pts.map Prod.fst)).Perm (pts.map Prod.fst) :=
    List.perm_insertionSort dateLe _
  have hnodup2 : (sortDates (pts.map Prod.fst)).Nodup := hperm.nodup_iff.mpr hnodup
  have hvalid2 : ∀ d ∈ sortDates (pts.map Prod.fst), d.valid := by
    intro d hd
    obtain ⟨p, hp, rfl⟩ := List.mem_map.mp (hperm.mem_iff.mp hd)
    exact hvalid p hp
  have hpair : List.Pairwise dateLt (sortDates (pts.map Prod.fst)) :=
    (hsorted.and hnodup2).imp (fun h => dateLt_of_le_of_ne h.1 h.2)
  rw [htenors, List.pairwise_map]
  refine hpair.imp_of_mem ?_
  intro a a' ha ha' haa
  have hmono := toOrdinal_lt_toOrdinal (hvalid2 a ha) (hvalid2 a' ha') haa
  have hsub : ((a.toOrdinal : ℤ) - (v.toOrdinal : ℤ))
      < ((a'.toOrdinal : ℤ) - (v.toOrdinal : ℤ)) := by omega
  have hsubq : ((((a.toOrdinal : ℤ) - (v.toOrdinal : ℤ)) : ℤ) : ℚ)
      < ((((a'.toOrdinal : ℤ) - (v.toOrdinal : ℤ)) : ℤ) : ℚ) := by exact_mod_cast hsub
  exact div_lt_div_of_pos_right hsubq hden

/-- Witness for C9 (amended): two distinct valid dates under ACT/365 give the
strictly increasing axis [366/365, 731/365]. -/
theorem axis_strict_mono_act_witness :
    List.Pairwise (fun x y => x < y)
      (FundingCurveBuilder.mk (Date.mk 2024 1 1) "ACT/365" [366/365, 731/365]
        [3/100, 7/200] none).ois_tenors :=
  axis_strict_mono_act [(Date.mk 2025 1 1, 3/100), (Date.mk 2026 1 1, 7/200)]
    (Date.mk 2024 1 1) "ACT/365" _ (by intro p hp; fin_cases hp <;> decide) (by decide)
    (Or.inl rfl) (by rfl)
